import Mathlib

/-!
Shallow embedding of the growable-array container from this repository
(two drafts: advanced-vector/vector.h and unnamed/part_000).

A `Vector` state is the list of live, constructed elements together with the
capacity of the owned raw block; `RawMemory` is modelled as an optional block
address plus a capacity.  Fallible element operations (copy construction,
copy assignment: anything the C++ type `T` may throw from) are driven by an
explicit throw schedule `sched : List Bool` consumed tick by tick, and
instrumented operations additionally report effect counters (element
constructions and destructions performed, raw allocations and deallocations)
so that exception-safety and leak-freedom statements can be phrased as
counter balancing, exactly as the repository's specification describes.
-/

namespace Adv

/-- Effect counters for one container operation: element constructor calls,
element destructor calls, raw-block allocations, raw-block deallocations
(of a non-null block). -/
structure Eff where
  ctors : Nat
  dtors : Nat
  allocs : Nat
  deallocs : Nat
deriving DecidableEq

/-- Abstract state of `Vector<T>`: the live elements in slots `[0, size_)`
and the capacity of the `RawMemory` block `data_`. -/
structure Vector (α : Type) where
  elems : List α
  cap : Nat
deriving DecidableEq

/-- `Vector::Size`: returns `size_`, the number of live elements. -/
def Vector.Size {α : Type} (v : Vector α) : Nat :=
  v.elems.length

/-- `Vector::Capacity`: returns `data_.Capacity()`. -/
def Vector.Capacity {α : Type} (v : Vector α) : Nat :=
  v.cap

/-- `Vector::EmplaceBack` (success semantics, both drafts): when
`size_ == Capacity()` allocate a block of `size_ == 0 ? 1 : size_ * 2`
slots, construct the new element at slot `size_`, relocate the old
elements, destroy the originals and adopt the new block; otherwise
construct in place at slot `size_`.  Either way the new element ends at
the back and `size_` grows by one. -/
def Vector.EmplaceBack {α : Type} (v : Vector α) (x : α) : Vector α :=
  if v.elems.length = v.cap then
    ⟨v.elems ++ [x], if v.elems.length = 0 then 1 else v.elems.length * 2⟩
  else
    ⟨v.elems ++ [x], v.cap⟩

/-- `Vector::PushBack`: delegates to `EmplaceBack` (literally in part_000;
vector.h repeats the same body). -/
def Vector.PushBack {α : Type} (v : Vector α) (x : α) : Vector α :=
  v.EmplaceBack x

/-- `Vector::Emplace` (success semantics) at logical index
`i = pos - begin()`.  Growth path: construct the new element at slot `i`
of the doubled block, relocate `[0, i)` and `[i, size_)` around it.
In-place path (`i < size_`): save the argument in a temporary, construct
slot `size_` from the last element, shift `[i, size_ - 1)` right by one
backwards, assign the temporary into slot `i`.  Both paths insert `x` at
index `i`, keeping the other elements in order. -/
def Vector.Emplace {α : Type} (v : Vector α) (i : Nat) (x : α) : Vector α :=
  if v.elems.length = v.cap then
    ⟨v.elems.take i ++ x :: v.elems.drop i,
     if v.elems.length = 0 then 1 else v.elems.length * 2⟩
  else
    ⟨v.elems.take i ++ x :: v.elems.drop i, v.cap⟩

/-- `Vector::Insert`: part_000 returns `Emplace(pos, value)` verbatim for
both the copying and the moving overload. -/
def Vector.Insert {α : Type} (v : Vector α) (i : Nat) (x : α) : Vector α :=
  v.Emplace i x

/-- `Vector::Erase` at logical index `i = pos - begin()`: move-assign
`[i + 1, size_)` one slot left, then `PopBack` destroys the leftover last
slot.  Net effect: the element at index `i` is removed. -/
def Vector.Erase {α : Type} (v : Vector α) (i : Nat) : Vector α :=
  ⟨v.elems.eraseIdx i, v.cap⟩

/-- `Vector::PopBack` of part_000: guarded by `size_ > 0`; destroys the
last element and decrements `size_`, else does nothing.  The second
component counts destructor calls. -/
def Vector.PopBack {α : Type} (v : Vector α) : Vector α × Nat :=
  if v.elems.length > 0 then (⟨v.elems.dropLast, v.cap⟩, 1) else (v, 0)

/-- Modulus of the C++ `size_t` fields (64-bit build). -/
def SIZE_T_MOD : Nat :=
  2 ^ 64

/-- The two `size_t` fields of a `Vector`, for the draft whose `PopBack`
is unchecked and can underflow `size_`. -/
structure VecSz where
  size : Nat
  cap : Nat
deriving DecidableEq

/-- `Vector::PopBack` of advanced-vector/vector.h: unconditionally runs
`data_[size_ - 1].~T(); --size_;`.  Both the destructor's slot index
`size_ - 1` and the decremented `size_` are `size_t` values, so on an
empty vector they wrap around to `2 ^ 64 - 1`.  Returns the new field
state and the index of the slot whose destructor was invoked. -/
def VecSz.PopBackUnchecked (v : VecSz) : VecSz × Nat :=
  (⟨(v.size + (SIZE_T_MOD - 1)) % SIZE_T_MOD, v.cap⟩,
   (v.size + (SIZE_T_MOD - 1)) % SIZE_T_MOD)

/-- Relocation effect counters for `Reserve`: move constructions, copy
constructions, destructor calls on the originals. -/
structure RelocEff where
  moveCtors : Nat
  copyCtors : Nat
  dtors : Nat
deriving DecidableEq

/-- `Vector::Reserve` (both drafts), instrumented with relocation
counters.  `nothrowMove` stands for
`std::is_nothrow_move_constructible_v<T>` and `copyConstructible` for
`std::is_copy_constructible_v<T>`.  No-op when
`new_capacity <= data_.Capacity()`; otherwise allocate exactly
`new_capacity` slots, relocate every element in order (by move when
`nothrowMove || !copyConstructible`, else by copy), destroy the
originals and adopt the new block. -/
def Vector.Reserve {α : Type} (nothrowMove copyConstructible : Bool)
    (v : Vector α) (newCapacity : Nat) : Vector α × RelocEff :=
  if newCapacity ≤ v.cap then
    (v, ⟨0, 0, 0⟩)
  else if nothrowMove || !copyConstructible then
    (⟨v.elems, newCapacity⟩, ⟨v.elems.length, 0, v.elems.length⟩)
  else
    (⟨v.elems, newCapacity⟩, ⟨0, v.elems.length, v.elems.length⟩)

/-- Effect counters for `Resize`: the relocation effects of the inner
`Reserve`, the destructor calls on the trailing elements removed when
shrinking, and the default (value) constructions appended when growing. -/
structure ResizeEff where
  reloc : RelocEff
  tailDtors : Nat
  defaultCtors : Nat
deriving DecidableEq

/-- `Vector::Resize` (both drafts), instrumented.  Shrinking destroys the
elements of `[new_size, size_)`; growing calls `Reserve(new_size)` and
value-constructs `[size_, new_size)` (modelled with the default value
`d`); finally `size_ = new_size`. -/
def Vector.Resize {α : Type} (nothrowMove copyConstructible : Bool) (d : α)
    (v : Vector α) (newSize : Nat) : Vector α × ResizeEff :=
  if newSize < v.elems.length then
    (⟨v.elems.take newSize, v.cap⟩, ⟨⟨0, 0, 0⟩, v.elems.length - newSize, 0⟩)
  else if v.elems.length < newSize then
    (⟨(v.Reserve nothrowMove copyConstructible newSize).1.elems ++
        List.replicate (newSize - v.elems.length) d,
      (v.Reserve nothrowMove copyConstructible newSize).1.cap⟩,
     ⟨(v.Reserve nothrowMove copyConstructible newSize).2, 0,
      newSize - v.elems.length⟩)
  else
    (v, ⟨⟨0, 0, 0⟩, 0, 0⟩)

/-- `Vector(Vector&& other)`: default-construct `this` (empty, capacity 0)
then `Swap(other)`.  Returns (constructed vector, moved-from source). -/
def Vector.moveConstruct {α : Type} (src : Vector α) : Vector α × Vector α :=
  (src, ⟨[], 0⟩)

/-- `Vector::operator=(Vector&&)` (both drafts): if `this != &rhs` then
`Swap(rhs)`, else nothing.  `aliased` models the `this == &rhs` identity
test; the result is (receiver after, right-hand side after). -/
def Vector.moveAssign {α : Type} (aliased : Bool) (self rhs : Vector α) :
    Vector α × Vector α :=
  match aliased with
  | true => (self, rhs)
  | false => (rhs, self)

/-- Abstract state of `RawMemory<T>`: the block address (`none` models
`nullptr`) and the capacity in slots. -/
structure RawMemory where
  buffer : Option Nat
  capacity : Nat
deriving DecidableEq

/-- `RawMemory(RawMemory&&)` (both drafts' net effect): the new object
takes the source's buffer and capacity and the source is left with
`buffer_ = nullptr, capacity_ = 0`.  Returns (constructed, moved-from). -/
def rawMoveConstruct (src : RawMemory) : RawMemory × RawMemory :=
  (src, ⟨none, 0⟩)

/-- `RawMemory::operator=(RawMemory&&)` of part_000 on distinct objects:
plain `Swap(other)`.  Returns (receiver after, moved-from source after):
the moved-from source holds the receiver's previous buffer and
capacity. -/
def rawMoveAssignSwap (self other : RawMemory) : RawMemory × RawMemory :=
  (other, self)

/-- `RawMemory::operator=(RawMemory&&)` of advanced-vector/vector.h on
distinct objects: `delete[] buffer_; Swap(other);`.  The receiver's block
is freed first, but `buffer_` still holds the freed address when it is
swapped into `other`, so the moved-from source is left with the
receiver's previous (now dangling) address and capacity.  Returns
(receiver after, moved-from source after, the freed address). -/
def rawMoveAssignDeleteSwap (self other : RawMemory) :
    RawMemory × RawMemory × Option Nat :=
  (other, ⟨self.buffer, self.capacity⟩, self.buffer)

/-- Index of the first throwing call among `n` consecutive fallible
element operations starting at tick `k` of the throw schedule, if any. -/
def firstThrow (sched : List Bool) (k : Nat) : Nat → Option Nat
  | 0 => none
  | n + 1 =>
    if sched.getD k false then some 0
    else (firstThrow sched (k + 1) n).map (fun j => j + 1)

/-- Outcome of an instrumented container operation: whether it completed
(`ok = false` means an exception propagated), the container state
afterwards, the effect counters, and the next schedule tick. -/
structure OpResult (α : Type) where
  ok : Bool
  state : Vector α
  eff : Eff
  tick : Nat
deriving DecidableEq

/-- `Vector::operator=(const Vector&)` (both drafts; part_000 factors the
second branch into `Copy`), instrumented with a throw schedule.  When
`rhs.size_ > data_.Capacity()`: build a full copy (`Vector rhs_copy(rhs)`,
one allocation of `rhs.size_` slots plus `rhs.size_` copy constructions,
each fallible; a failure destroys the partial constructs and frees the
temporary block, leaving the receiver untouched) and `Swap` it in; the
receiver's old elements and block are then torn down with the temporary.
Otherwise overwrite element-wise: copy-assign the common part slot by slot
(each assignment fallible; a failure leaves the already-assigned slots
overwritten), then either destroy the receiver's excess elements or
copy-construct the source's extra elements into the free capacity
(fallible, with its own partial constructs rolled back). -/
def Vector.copyAssignI {α : Type} (sched : List Bool) (k : Nat)
    (aliased : Bool) (self rhs : Vector α) : OpResult α :=
  match aliased with
  | true => ⟨true, self, ⟨0, 0, 0, 0⟩, k⟩
  | false =>
    if self.cap < rhs.elems.length then
      match firstThrow sched k rhs.elems.length with
      | some j => ⟨false, self, ⟨j, j, 1, 1⟩, k + j + 1⟩
      | none =>
        ⟨true, ⟨rhs.elems, rhs.elems.length⟩,
         ⟨rhs.elems.length, self.elems.length, 1,
          if self.cap = 0 then 0 else 1⟩,
         k + rhs.elems.length⟩
    else if rhs.elems.length < self.elems.length then
      match firstThrow sched k rhs.elems.length with
      | some j =>
        ⟨false, ⟨rhs.elems.take j ++ self.elems.drop j, self.cap⟩,
         ⟨0, 0, 0, 0⟩, k + j + 1⟩
      | none =>
        ⟨true, ⟨rhs.elems.take rhs.elems.length, self.cap⟩,
         ⟨0, self.elems.length - rhs.elems.length, 0, 0⟩,
         k + rhs.elems.length⟩
    else
      match firstThrow sched k self.elems.length with
      | some j =>
        ⟨false, ⟨rhs.elems.take j ++ self.elems.drop j, self.cap⟩,
         ⟨0, 0, 0, 0⟩, k + j + 1⟩
      | none =>
        match firstThrow sched (k + self.elems.length)
            (rhs.elems.length - self.elems.length) with
        | some j2 =>
          ⟨false, ⟨rhs.elems.take self.elems.length, self.cap⟩,
           ⟨j2, j2, 0, 0⟩, k + self.elems.length + j2 + 1⟩
        | none =>
          ⟨true,
           ⟨rhs.elems.take self.elems.length ++
              rhs.elems.drop self.elems.length, self.cap⟩,
           ⟨rhs.elems.length - self.elems.length, 0, 0, 0⟩,
           k + rhs.elems.length⟩

/-- `Vector::EmplaceBack` (both drafts), instrumented, for an element type
relocated by copy (throwing move, copy-constructible).  Growth path: the
new block is allocated, the new element is constructed at slot `size_`
(tick `k`), then `std::uninitialized_copy_n` relocates the old elements
(ticks `k + 1, ...`; on a throw it destroys its own partial constructs).
There is no handler around the relocation, so when it throws the local
`RawMemory` destructor merely frees the raw block: the destructor of the
just-constructed new element at slot `size_` is never run.  In-place path:
one fallible construction at slot `size_`. -/
def Vector.EmplaceBackCopyReloc {α : Type} (sched : List Bool) (k : Nat)
    (v : Vector α) (x : α) : OpResult α :=
  if v.elems.length = v.cap then
    if sched.getD k false then
      ⟨false, v, ⟨0, 0, 1, 1⟩, k + 1⟩
    else
      match firstThrow sched (k + 1) v.elems.length with
      | some j => ⟨false, v, ⟨1 + j, j, 1, 1⟩, k + 1 + j + 1⟩
      | none =>
        ⟨true,
         ⟨v.elems ++ [x], if v.elems.length = 0 then 1 else v.elems.length * 2⟩,
         ⟨1 + v.elems.length, v.elems.length, 1, if v.cap = 0 then 0 else 1⟩,
         k + 1 + v.elems.length⟩
  else
    if sched.getD k false then ⟨false, v, ⟨0, 0, 0, 0⟩, k + 1⟩
    else ⟨true, ⟨v.elems ++ [x], v.cap⟩, ⟨1, 0, 0, 0⟩, k + 1⟩

/-- Growth path of `Vector::Emplace` (both drafts) at logical index `i`,
instrumented, copy-relocation branch.  The new element is constructed at
slot `i` of the new block (tick `k`; on a throw only the raw block is
freed).  First relocation phase copies `[0, i)`; its failure handler
destroys the new element (the copier rolled back its own partials).
Second phase copies `[i, size_)` into slots `[i + 1, ...)`; its failure
handler runs `std::destroy_n(new_data.GetAddress(), index + 1)`,
destroying the relocated head and the new element, so every element
constructed by the operation is destroyed before the block is freed. -/
def Vector.EmplaceGrowCopy {α : Type} (sched : List Bool) (k : Nat)
    (v : Vector α) (i : Nat) (x : α) : OpResult α :=
  if sched.getD k false then
    ⟨false, v, ⟨0, 0, 1, 1⟩, k + 1⟩
  else
    match firstThrow sched (k + 1) i with
    | some j => ⟨false, v, ⟨1 + j, j + 1, 1, 1⟩, k + 1 + j + 1⟩
    | none =>
      match firstThrow sched (k + 1 + i) (v.elems.length - i) with
      | some j2 =>
        ⟨false, v, ⟨1 + i + j2, j2 + (i + 1), 1, 1⟩, k + 1 + i + j2 + 1⟩
      | none =>
        ⟨true,
         ⟨v.elems.take i ++ x :: v.elems.drop i,
          if v.elems.length = 0 then 1 else v.elems.length * 2⟩,
         ⟨1 + v.elems.length, v.elems.length, 1, if v.cap = 0 then 0 else 1⟩,
         k + 1 + v.elems.length⟩

/-- Growth path of the rvalue `Vector::Insert(const_iterator, T&&)` of
advanced-vector/vector.h at logical index `i`, instrumented,
copy-relocation branch.  Same structure as the `Emplace` growth path,
except that one single handler guards both relocation phases and it runs
`std::destroy_n(new_data.GetAddress() + index, 1)`: only the new element
is destroyed.  When the second phase throws, the `i` elements already
relocated into `[0, i)` of the new block are never destroyed. -/
def Vector.InsertRvGrowCopy {α : Type} (sched : List Bool) (k : Nat)
    (v : Vector α) (i : Nat) (x : α) : OpResult α :=
  if sched.getD k false then
    ⟨false, v, ⟨0, 0, 1, 1⟩, k + 1⟩
  else
    match firstThrow sched (k + 1) i with
    | some j => ⟨false, v, ⟨1 + j, j + 1, 1, 1⟩, k + 1 + j + 1⟩
    | none =>
      match firstThrow sched (k + 1 + i) (v.elems.length - i) with
      | some j2 =>
        ⟨false, v, ⟨1 + i + j2, j2 + 1, 1, 1⟩, k + 1 + i + j2 + 1⟩
      | none =>
        ⟨true,
         ⟨v.elems.take i ++ x :: v.elems.drop i,
          if v.elems.length = 0 then 1 else v.elems.length * 2⟩,
         ⟨1 + v.elems.length, v.elems.length, 1, if v.cap = 0 then 0 else 1⟩,
         k + 1 + v.elems.length⟩

/-- An empty throw schedule never throws (`getD` defaults to `false`). -/
theorem firstThrow_nil (k n : Nat) : firstThrow [] k n = none := by
  induction n generalizing k with
  | zero => rfl
  | succ n ih => simp [firstThrow, ih]

/-- `Reserve` never changes the live elements, in either branch. -/
theorem Vector.Reserve_elems {α : Type} (nm cp : Bool) (v : Vector α)
    (k : Nat) : (v.Reserve nm cp k).1.elems = v.elems := by
  simp only [Vector.Reserve]
  split
  · rfl
  · split <;> rfl

/-- C1: evaluating `EmplaceBack` at a growth-triggering call on a
one-element full-capacity vector of a copy-relocated type, with a
schedule under which the new element's construction succeeds and the
relocation copy of the existing element throws: the error propagates with
size, capacity and elements unchanged and the allocated block freed, but
exactly one constructed object (the new element at slot `size_`) is never
destroyed, contradicting the claim that the new storage including the new
element is torn down with no constructed object leaked. -/
theorem Vector.emplaceBack_reloc_failure_leaks_new_element :
    (Vector.EmplaceBackCopyReloc [false, true] 0 (Vector.mk [7] 1) 5).ok = false ∧
    (Vector.EmplaceBackCopyReloc [false, true] 0 (Vector.mk [7] 1) 5).state =
      Vector.mk [7] 1 ∧
    (Vector.EmplaceBackCopyReloc [false, true] 0 (Vector.mk [7] 1) 5).eff.allocs =
      (Vector.EmplaceBackCopyReloc [false, true] 0 (Vector.mk [7] 1) 5).eff.deallocs ∧
    (Vector.EmplaceBackCopyReloc [false, true] 0 (Vector.mk [7] 1) 5).eff.ctors = 1 ∧
    (Vector.EmplaceBackCopyReloc [false, true] 0 (Vector.mk [7] 1) 5).eff.dtors = 0 := by
  decide

/-- C2 counterexample: the unchecked `PopBack` of advanced-vector/vector.h
applied to an empty vector is not a no-op: `--size_` wraps the `size_t`
length around to `2 ^ 64 - 1` (and the destructor is invoked on the
out-of-range slot `size_ - 1`). -/
theorem Vector.popBack_unchecked_empty_not_noop :
    (VecSz.PopBackUnchecked (VecSz.mk 0 0)).1 ≠ VecSz.mk 0 0 := by
  decide

/-- C2 (amended): part_000's guarded `PopBack` on an empty vector of any
capacity is a no-op performing zero destructor calls, while the unchecked
`PopBack` of advanced-vector/vector.h wraps the length to `2 ^ 64 - 1`
and invokes the destructor of the out-of-range slot `2 ^ 64 - 1`. -/
theorem Vector.popBack_empty_amended (c : Nat) :
    Vector.PopBack (Vector.mk ([] : List Nat) c) = (Vector.mk [] c, 0) ∧
    (VecSz.PopBackUnchecked (VecSz.mk 0 c)).1 = VecSz.mk (SIZE_T_MOD - 1) c ∧
    (VecSz.PopBackUnchecked (VecSz.mk 0 c)).2 = SIZE_T_MOD - 1 := by
  have hpos : 0 < SIZE_T_MOD := by norm_num [SIZE_T_MOD]
  refine ⟨rfl, ?_, ?_⟩ <;>
    simp [VecSz.PopBackUnchecked, Nat.mod_eq_of_lt (by omega : SIZE_T_MOD - 1 < SIZE_T_MOD)]

/-- C3 counterexample: move-assigning `[20, 30]` into `[10]` is a swap, so
the moved-from source is left holding `[10]` — length 1, not the empty
container the claim requires. -/
theorem Vector.moveAssign_source_not_empty :
    ¬ ((Vector.moveAssign false (Vector.mk [10] 1)
          (Vector.mk [20, 30] 2)).2.Size = 0) := by
  decide

/-- C3 (amended): move construction gives the destination exactly the
source's prior contents and leaves the source empty with capacity 0; move
assignment between distinct vectors swaps, so the destination gets
exactly the source's prior contents while the source is left holding the
destination's prior contents (a valid container, in general non-empty).
Both are plain field exchanges: no element is copied, constructed or
destroyed, and neither operation can fail. -/
theorem Vector.move_transfers_contents {α : Type} (dest src : Vector α) :
    Vector.moveConstruct src = (src, Vector.mk [] 0) ∧
    Vector.moveAssign false dest src = (src, dest) :=
  ⟨rfl, rfl⟩

/-- C4 counterexample: after part_000's `RawMemory` move assignment
(a `Swap`), the moved-from instance holds the receiver's previous buffer
and capacity — here address 0 with capacity 2, not (null, 0). -/
theorem rawMoveAssignSwap_source_not_null :
    (rawMoveAssignSwap (RawMemory.mk (some 0) 2) (RawMemory.mk (some 1) 3)).2 ≠
      RawMemory.mk none 0 := by
  decide

/-- C4 (amended): after move construction the moved-from `RawMemory` holds
no memory (null buffer, capacity 0), so releasing it is a no-op, and the
destination receives the source's prior address and capacity.  After move
assignment the destination also receives the source's prior address and
capacity, but the moved-from instance does not become (null, 0): part_000
swaps, leaving it with the receiver's previous buffer and capacity, and
advanced-vector/vector.h first frees the receiver's buffer and then
swaps, leaving the moved-from instance with the receiver's previous
capacity and its already-freed (dangling) address. -/
theorem rawMemory_move_spec_amended (a b : RawMemory) :
    rawMoveConstruct a = (a, RawMemory.mk none 0) ∧
    rawMoveAssignSwap a b = (b, a) ∧
    rawMoveAssignDeleteSwap a b = (b, a, a.buffer) :=
  ⟨rfl, rfl, rfl⟩

/-- C9: at the same failing input — a full two-element vector, rvalue
insertion at index 1, relocation by copy, schedule under which the new
element and the relocated head succeed and the relocation of the tail
element throws — `Emplace` destroys both objects it constructed in the
new block (the relocated head and the new element; counters balanced),
while vector.h's rvalue `Insert` destroys only the new element, leaking
the relocated head, so `Insert` does not have the same failure behavior
as the `Emplace` call it claims to wrap. -/
theorem Vector.insert_emplace_failure_divergence :
    (Vector.EmplaceGrowCopy [false, false, true] 0 (Vector.mk [10, 20] 2) 1 99).ok
        = false ∧
    (Vector.InsertRvGrowCopy [false, false, true] 0 (Vector.mk [10, 20] 2) 1 99).ok
        = false ∧
    (Vector.EmplaceGrowCopy [false, false, true] 0 (Vector.mk [10, 20] 2) 1 99).eff
        = Eff.mk 2 2 1 1 ∧
    (Vector.InsertRvGrowCopy [false, false, true] 0 (Vector.mk [10, 20] 2) 1 99).eff
        = Eff.mk 2 1 1 1 ∧
    (Vector.InsertRvGrowCopy [false, false, true] 0 (Vector.mk [10, 20] 2) 1 99).eff.dtors
        ≠ (Vector.EmplaceGrowCopy [false, false, true] 0 (Vector.mk [10, 20] 2) 1 99).eff.dtors := by
  decide

/-- C10: self-assignment is a no-op.  Both `operator=(const Vector&)` and
`operator=(Vector&&)` first test `this != &rhs`; on the aliased call they
return immediately, so the vector is unchanged, no element is constructed
or destroyed, no memory is touched, and no failure is possible under any
throw schedule. -/
theorem Vector.self_assignment_noop {α : Type} (sched : List Bool) (k : Nat)
    (v : Vector α) :
    Vector.copyAssignI sched k true v v = OpResult.mk true v (Eff.mk 0 0 0 0) k ∧
    Vector.moveAssign true v v = (v, v) :=
  ⟨rfl, rfl⟩

/-- C5 counterexample: copy-assigning `[5, 6]` into `[1, 2]` (source
length 2 fits within the receiver's capacity 2, so the element-wise
overwrite path is taken, not the build-new-copy path) under a schedule
whose second element copy assignment throws: the operation fails in the
overwrite path — and moreover leaves the receiver partially overwritten —
refuting the claim that copy assignment can fail only in the
build-new-copy path. -/
theorem Vector.copyAssign_overwrite_path_can_fail :
    (Vector.mk [5, 6] 2 : Vector Nat).elems.length ≤
      (Vector.mk [1, 2] 2 : Vector Nat).cap ∧
    (Vector.copyAssignI [false, true] 0 false (Vector.mk [1, 2] 2)
        (Vector.mk [5, 6] 2)).ok = false ∧
    (Vector.copyAssignI [false, true] 0 false (Vector.mk [1, 2] 2)
        (Vector.mk [5, 6] 2)).state = Vector.mk [5, 2] 2 := by
  decide

/-- C5 (amended): copy assignment where the source's length exceeds the
receiver's capacity builds a full copy and swaps it in, so any failure in
that path leaves the receiver untouched.  The element-wise overwrite path
taken when the source's length fits within the receiver's capacity can
also fail (element copy assignment and copy construction are fallible);
when no element operation throws it succeeds and the receiver ends with
the source's elements and its own capacity. -/
theorem Vector.copyAssign_strong_guarantee_amended {α : Type}
    (self rhs : Vector α) (sched : List Bool) (k : Nat) :
    (self.cap < rhs.elems.length →
      (Vector.copyAssignI sched k false self rhs).ok = false →
      (Vector.copyAssignI sched k false self rhs).state = self) ∧
    (rhs.elems.length ≤ self.cap →
      (Vector.copyAssignI [] k false self rhs).ok = true ∧
      (Vector.copyAssignI [] k false self rhs).state =
        Vector.mk rhs.elems self.cap) := by
  constructor
  · intro h1 h2
    simp only [Vector.copyAssignI] at h2 ⊢
    rw [if_pos h1] at h2 ⊢
    cases hft : firstThrow sched k rhs.elems.length with
    | some j => rfl
    | none => rw [hft] at h2; simp at h2
  · intro h1
    simp only [Vector.copyAssignI]
    rw [if_neg (Nat.not_lt.mpr h1)]
    by_cases h3 : rhs.elems.length < self.elems.length
    · rw [if_pos h3, firstThrow_nil]
      exact ⟨rfl, by simp⟩
    · rw [if_neg h3, firstThrow_nil, firstThrow_nil]
      exact ⟨rfl, by simp⟩

/-- C5 witness: a concrete build-new-copy failure (source `[8, 9]` longer
than the receiver's capacity 1, first copy construction throws) leaves
the receiver `[1]` untouched. -/
theorem Vector.copyAssign_strong_guarantee_witness :
    (Vector.copyAssignI [true] 0 false (Vector.mk ([1] : List Nat) 1)
        (Vector.mk [8, 9] 1)).ok = false ∧
    (Vector.copyAssignI [true] 0 false (Vector.mk ([1] : List Nat) 1)
        (Vector.mk [8, 9] 1)).state = Vector.mk [1] 1 := by
  refine ⟨by decide, ?_⟩
  exact (Vector.copyAssign_strong_guarantee_amended (Vector.mk [1] 1)
    (Vector.mk [8, 9] 1) [true] 0).1 (by decide) (by decide)

/-- C6: whenever a growth-triggering insertion happens
(`size_ == Capacity()`), the adopted capacity is exactly
`max 1 (2 * old capacity)` — for `EmplaceBack` (hence `PushBack`, which
delegates to it) and for `Emplace` (hence `Insert`, which delegates to
it) — and the concrete scenario holds: starting empty,
`PushBack 1, 2, 3` yields capacities 1, 2, 4 with elements `[1, 2, 3]`,
`Insert` at index 1 of 99 yields `[1, 99, 2, 3]` with capacity 4, and
`Erase` at index 0 yields `[99, 2, 3]` of size 3. -/
theorem Vector.growth_policy_and_scenario :
    (∀ (v : Vector Nat) (x i : Nat), v.Size = v.Capacity →
      (v.EmplaceBack x).Capacity = max 1 (2 * v.Capacity) ∧
      (v.Emplace i x).Capacity = max 1 (2 * v.Capacity)) ∧
    ((Vector.mk ([] : List Nat) 0).Capacity = 0 ∧
     (Vector.mk ([] : List Nat) 0).PushBack 1 = Vector.mk [1] 1 ∧
     ((Vector.mk ([] : List Nat) 0).PushBack 1).PushBack 2 = Vector.mk [1, 2] 2 ∧
     (((Vector.mk ([] : List Nat) 0).PushBack 1).PushBack 2).PushBack 3 =
       Vector.mk [1, 2, 3] 4 ∧
     ((((Vector.mk ([] : List Nat) 0).PushBack 1).PushBack 2).PushBack 3).Size = 3 ∧
     ((((Vector.mk ([] : List Nat) 0).PushBack 1).PushBack 2).PushBack 3).Insert 1 99 =
       Vector.mk [1, 99, 2, 3] 4 ∧
     (((((Vector.mk ([] : List Nat) 0).PushBack 1).PushBack 2).PushBack 3).Insert 1 99).Size
       = 4 ∧
     (((((Vector.mk ([] : List Nat) 0).PushBack 1).PushBack 2).PushBack 3).Insert 1 99).Erase 0
       = Vector.mk [99, 2, 3] 4 ∧
     ((((((Vector.mk ([] : List Nat) 0).PushBack 1).PushBack 2).PushBack 3).Insert 1 99).Erase 0).Size
       = 3) := by
  constructor
  · intro v x i h
    simp only [Vector.Size, Vector.Capacity] at h
    constructor
    · show (Vector.EmplaceBack v x).cap = max 1 (2 * v.cap)
      simp only [Vector.EmplaceBack]
      rw [if_pos h]
      show (if v.elems.length = 0 then 1 else v.elems.length * 2) = max 1 (2 * v.cap)
      rw [← h]
      by_cases h0 : v.elems.length = 0
      · rw [if_pos h0, h0]
        simp
      · rw [if_neg h0, Nat.max_eq_right (by omega)]
        omega
    · show (Vector.Emplace v i x).cap = max 1 (2 * v.cap)
      simp only [Vector.Emplace]
      rw [if_pos h]
      show (if v.elems.length = 0 then 1 else v.elems.length * 2) = max 1 (2 * v.cap)
      rw [← h]
      by_cases h0 : v.elems.length = 0
      · rw [if_pos h0, h0]
        simp
      · rw [if_neg h0, Nat.max_eq_right (by omega)]
        omega
  · decide

/-- C6 witness: a growth-triggering insertion on a full one-element vector
doubles the capacity to `max 1 (2 * 1) = 2`. -/
theorem Vector.growth_policy_witness :
    ((Vector.mk [5] 1 : Vector Nat).EmplaceBack 6).Capacity =
      max 1 (2 * (Vector.mk [5] 1 : Vector Nat).Capacity) ∧
    ((Vector.mk [5] 1 : Vector Nat).Emplace 0 6).Capacity =
      max 1 (2 * (Vector.mk [5] 1 : Vector Nat).Capacity) :=
  Vector.growth_policy_and_scenario.1 (Vector.mk [5] 1) 6 0 rfl

/-- C7: `Reserve(k)` with `k ≤ Capacity()` is a no-op — state unchanged
and zero element constructions or destructions — and with
`k > Capacity()` it sets the capacity to exactly `k`, keeps the elements
(hence the size) unchanged and in order, and relocates by move
construction exactly when the element type's move construction is
statically non-throwing or the type is not copy-constructible, otherwise
by copy construction. -/
theorem Vector.reserve_spec {α : Type} (nm cp : Bool) (v : Vector α)
    (k : Nat) :
    (k ≤ v.Capacity → v.Reserve nm cp k = (v, ⟨0, 0, 0⟩)) ∧
    (v.Capacity < k →
      (v.Reserve nm cp k).1.Capacity = k ∧
      (v.Reserve nm cp k).1.elems = v.elems ∧
      (v.Reserve nm cp k).2.moveCtors = (if nm || !cp then v.Size else 0) ∧
      (v.Reserve nm cp k).2.copyCtors = (if nm || !cp then 0 else v.Size) ∧
      (v.Reserve nm cp k).2.dtors = v.Size) := by
  constructor
  · intro h
    simp only [Vector.Capacity] at h
    simp only [Vector.Reserve, if_pos h]
  · intro h
    simp only [Vector.Capacity] at h
    have hnot : ¬ k ≤ v.cap := Nat.not_le.mpr h
    simp only [Vector.Reserve, Vector.Capacity, Vector.Size, if_neg hnot]
    by_cases hf : (nm || !cp) = true
    · simp [hf]
    · simp [hf]

/-- C7 witness: growing a full two-element vector of capacity 2 to
capacity 5 keeps the elements and sets the capacity to exactly 5. -/
theorem Vector.reserve_spec_witness :
    ((Vector.mk [3, 4] 2 : Vector Nat).Reserve true true 5).1.Capacity = 5 ∧
    ((Vector.mk [3, 4] 2 : Vector Nat).Reserve true true 5).1.elems = [3, 4] ∧
    (Vector.Reserve true true (Vector.mk ([6] : List Nat) 3) 2) =
      (Vector.mk [6] 3, ⟨0, 0, 0⟩) := by
  refine ⟨?_, ?_, ?_⟩
  · exact ((Vector.reserve_spec true true (Vector.mk [3, 4] 2) 5).2 (by decide)).1
  · exact ((Vector.reserve_spec true true (Vector.mk [3, 4] 2) 5).2 (by decide)).2.1
  · exact (Vector.reserve_spec true true (Vector.mk [6] 3) 2).1 (by decide)

/-- C8: `Resize(k)` always ends with size exactly `k`; when `k < size()`
it destroys exactly `size() - k` trailing elements (and performs no
default construction), keeping the first `k` elements and the capacity;
when `k > size()` it reserves `k` and then default-constructs exactly
`k - size()` trailing elements (and destroys no trailing element); and in
every case the element values at indices below `min (old size) k` are
preserved. -/
theorem Vector.resize_spec {α : Type} (nm cp : Bool) (d : α) (v : Vector α)
    (k : Nat) :
    (v.Resize nm cp d k).1.Size = k ∧
    (k < v.Size →
      (v.Resize nm cp d k).1 = Vector.mk (v.elems.take k) v.cap ∧
      (v.Resize nm cp d k).2.tailDtors = v.Size - k ∧
      (v.Resize nm cp d k).2.defaultCtors = 0) ∧
    (v.Size < k →
      (v.Resize nm cp d k).1.elems =
        v.elems ++ List.replicate (k - v.Size) d ∧
      (v.Resize nm cp d k).2.defaultCtors = k - v.Size ∧
      (v.Resize nm cp d k).2.tailDtors = 0) ∧
    (v.Resize nm cp d k).1.elems.take (min v.Size k) =
      v.elems.take (min v.Size k) := by
  refine ⟨?_, ?_, ?_, ?_⟩
  · simp only [Vector.Size, Vector.Resize]
    rcases Nat.lt_trichotomy k v.elems.length with h | h | h
    · rw [if_pos h]
      show (v.elems.take k).length = k
      rw [List.length_take]
      omega
    · rw [if_neg (by omega : ¬ k < v.elems.length),
        if_neg (by omega : ¬ v.elems.length < k)]
      show v.elems.length = k
      omega
    · rw [if_neg (by omega : ¬ k < v.elems.length), if_pos h]
      show ((v.Reserve nm cp k).1.elems ++
        List.replicate (k - v.elems.length) d).length = k
      rw [Vector.Reserve_elems, List.length_append, List.length_replicate]
      omega
  · intro h
    simp only [Vector.Size] at h
    simp [Vector.Resize, if_pos h, Vector.Size]
  · intro h
    simp only [Vector.Size] at h
    simp [Vector.Resize, if_neg (by omega : ¬ k < v.elems.length), if_pos h,
      Vector.Reserve_elems, Vector.Size]
  · simp only [Vector.Size, Vector.Resize]
    rcases Nat.lt_trichotomy k v.elems.length with h | h | h
    · rw [if_pos h]
      show (v.elems.take k).take (min v.elems.length k) =
        v.elems.take (min v.elems.length k)
      have hmin : min v.elems.length k = k := by omega
      rw [hmin, List.take_take, Nat.min_self]
    · rw [if_neg (by omega : ¬ k < v.elems.length),
        if_neg (by omega : ¬ v.elems.length < k)]
    · rw [if_neg (by omega : ¬ k < v.elems.length), if_pos h]
      show ((v.Reserve nm cp k).1.elems ++
          List.replicate (k - v.elems.length) d).take (min v.elems.length k) =
        v.elems.take (min v.elems.length k)
      have hmin : min v.elems.length k = v.elems.length := by omega
      rw [Vector.Reserve_elems, hmin, List.take_left, List.take_length]

/-- C8 witness: shrinking `[1, 2, 3]` to size 1 keeps `[1]`, destroys
exactly two trailing elements, and growing `[1]` (capacity 3) to size 3
default-constructs exactly two trailing elements. -/
theorem Vector.resize_spec_witness :
    1 < (Vector.mk [1, 2, 3] 3 : Vector Nat).Size ∧
    (Vector.Resize true true 0 (Vector.mk [1, 2, 3] 3 : Vector Nat) 1).1 =
      Vector.mk [1] 3 ∧
    (Vector.Resize true true 0 (Vector.mk [1, 2, 3] 3 : Vector Nat) 1).2.tailDtors = 2 ∧
    (Vector.Resize true true 0 (Vector.mk ([1] : List Nat) 3) 3).2.defaultCtors = 2 := by
  refine ⟨by decide, ?_, ?_, ?_⟩
  · exact ((Vector.resize_spec true true 0 (Vector.mk [1, 2, 3] 3) 1).2.1
      (by decide)).1
  · exact ((Vector.resize_spec true true 0 (Vector.mk [1, 2, 3] 3) 1).2.1
      (by decide)).2.1
  · exact ((Vector.resize_spec true true 0 (Vector.mk [1] 3) 3).2.2.1
      (by decide)).2.1

end Adv
